import Mathlib

/-!
Shallow embedding of the Pomodoro timer application (`src/main.py`,
class `PomodoroTimer`).  The embedding covers:

* the persisted settings record, modelled as a Python-style ordered
  dictionary (`Dict`), together with `load_settings` / `save_settings`
  (`main.py` lines 158-181);
* the session state machine: `next_session`, `countdown`,
  `session_complete`, `start_timer`, `pause_timer`, `resume_timer`,
  `reset_timer` (`main.py` lines 348-464).

GUI calls (widget configuration, `update_display`, message boxes, sound
playback) have no effect on the modelled state and are dropped; the
scheduling handle `timer_job` is likewise not part of the observable
state (cancelling it changes only which callbacks fire later, which the
claims express directly as which functions are applied).
-/

namespace Pomodoro

/-- A JSON value as it occurs in the settings file: the application only
ever stores integers and strings. -/
inductive JValue where
  | num (n : Int)
  | str (s : String)
deriving DecidableEq, Repr

/-- A Python dict with string keys, in insertion order. -/
abbrev Dict := List (String × JValue)

/-- `d[k]` lookup: first binding of `k` in insertion order (keys are
unique in a Python dict, so "first" is exact). -/
def lookup : Dict → String → Option JValue
  | [], _ => none
  | (k, v) :: rest, key => if k = key then some v else lookup rest key

/-- `k in d` membership test on a Python dict. -/
def hasKey (d : Dict) (k : String) : Bool :=
  (lookup d k).isSome

/-- `d[k] = v` assignment on a Python dict: updates the binding in place
if the key exists, otherwise appends the new binding at the end. -/
def setKey : Dict → String → JValue → Dict
  | [], key, v => [(key, v)]
  | (k, w) :: rest, key, v =>
      if k = key then (k, v) :: rest else (k, w) :: setKey rest key v

/-- `self.default_settings` (`main.py` lines 50-56), in the insertion
order of the Python dict literal. -/
def default_settings : Dict :=
  [ ("work_duration", .num 25),
    ("short_break", .num 5),
    ("long_break", .num 15),
    ("sessions_until_long_break", .num 4),
    ("notification_sound", .str "") ]

/-- One iteration of the merge loop of `load_settings` (`main.py` lines
165-167): if the loaded dict is missing the default key, fill it in with
the default value. -/
def mergeStep (acc : Dict) (kv : String × JValue) : Dict :=
  if hasKey acc kv.1 then acc else setKey acc kv.1 kv.2

/-- The merge loop of `load_settings` (`main.py` lines 165-167): for each
default key in order, if the loaded dict is missing it, fill it in with
the default value. -/
def ensureDefaults (loaded : Dict) : Dict :=
  default_settings.foldl mergeStep loaded

/-- The state of the configuration file `pomodoro_config.json` as
`load_settings` observes it: absent, present but unreadable or not valid
JSON, or readable with JSON content `d`. -/
inductive Store where
  | missing
  | malformed
  | content (d : Dict)
deriving DecidableEq, Repr

/-- `save_settings` (`main.py` lines 175-181) on a successful write: the
file now holds exactly the serialized dict.  (A failed write leaves the
store unchanged and is swallowed; the success case is the one the
round-trip claim is about.) -/
def save_settings (settings : Dict) (_ : Store) : Store :=
  Store.content settings

/-- `load_settings` (`main.py` lines 158-173).  Returns the settings dict
together with a flag recording whether this call attempted to persist the
defaults via `save_settings`:

* file exists and parses: merge missing keys from defaults, no persist;
* file does not exist: persist the defaults, return a copy of them;
* any exception (malformed JSON, I/O error): return a copy of the
  defaults, without persisting. -/
def load_settings : Store → Dict × Bool
  | Store.content d => (ensureDefaults d, false)
  | Store.missing => (default_settings, true)
  | Store.malformed => (default_settings, false)

/-- `self.current_session` (`main.py` line 63): one of the strings
`"work"`, `"short_break"`, `"long_break"`. -/
inductive Session where
  | work
  | short_break
  | long_break
deriving DecidableEq, Repr

/-- The numeric settings the timer operations read
(`self.settings["work_duration"]` etc.).  After `load_settings` the
settings dict always carries these four keys; the timer code reads them
as Python ints. -/
structure Config where
  work_duration : Int
  short_break : Int
  long_break : Int
  sessions_until_long_break : Int
deriving DecidableEq, Repr

/-- The timer state variables of `PomodoroTimer` (`main.py` lines
62-68): `current_session`, `session_count`, `time_remaining` (seconds),
`is_running`, `is_paused`. -/
structure TimerState where
  current_session : Session
  session_count : Int
  time_remaining : Int
  is_running : Bool
  is_paused : Bool
deriving DecidableEq, Repr

/-- The initial timer state (`main.py` lines 63-67): a Work session at
full duration, not running, not paused. -/
def initial_state (cfg : Config) : TimerState :=
  { current_session := Session.work
    session_count := 0
    time_remaining := cfg.work_duration * 60
    is_running := false
    is_paused := false }

/-- `next_session` (`main.py` lines 446-464).  From a work session:
increment `session_count`; if the new count is divisible by
`sessions_until_long_break` go to a long break, else a short break, with
`time_remaining` set to that break's duration.  From either break: back
to work at full work duration, count unchanged. -/
def next_session (cfg : Config) (s : TimerState) : TimerState :=
  match s.current_session with
  | Session.work =>
      let c := s.session_count + 1
      if c % cfg.sessions_until_long_break = 0 then
        { s with
            session_count := c
            current_session := Session.long_break
            time_remaining := cfg.long_break * 60 }
      else
        { s with
            session_count := c
            current_session := Session.short_break
            time_remaining := cfg.short_break * 60 }
  | _ =>
      { s with
          current_session := Session.work
          time_remaining := cfg.work_duration * 60 }

/-- `session_complete` (`main.py` lines 409-424): clear `is_running`
(`is_paused` is not touched), then advance to the next session.  Sound
playback and the message box do not touch the modelled state. -/
def session_complete (cfg : Config) (s : TimerState) : TimerState :=
  next_session cfg { s with is_running := false }

/-- `countdown` (`main.py` lines 400-407): while running with time left,
decrement by one second (and re-arm the one-second callback); otherwise,
if the clock reads zero, handle session completion; otherwise do
nothing. -/
def countdown (cfg : Config) (s : TimerState) : TimerState :=
  if s.is_running = true ∧ 0 < s.time_remaining then
    { s with time_remaining := s.time_remaining - 1 }
  else if s.time_remaining = 0 then
    session_complete cfg s
  else
    s

/-- `start_timer` (`main.py` lines 355-361): set running, clear paused,
then immediately run `countdown`. -/
def start_timer (cfg : Config) (s : TimerState) : TimerState :=
  countdown cfg { s with is_running := true, is_paused := false }

/-- `pause_timer` (`main.py` lines 363-370): clear running, set paused,
cancel the pending tick.  `time_remaining` is not touched. -/
def pause_timer (s : TimerState) : TimerState :=
  { s with is_running := false, is_paused := true }

/-- `resume_timer` (`main.py` lines 372-378): set running, clear paused,
then immediately run `countdown` — exactly like `start_timer`. -/
def resume_timer (cfg : Config) (s : TimerState) : TimerState :=
  countdown cfg { s with is_running := true, is_paused := false }

/-- The duration, in minutes, that `reset_timer` (`main.py` lines
391-396) selects for the current session kind: `work_duration` for work,
`short_break` for a short break, and `long_break` in the remaining
(else) case. -/
def duration_for (cfg : Config) : Session → Int
  | Session.work => cfg.work_duration
  | Session.short_break => cfg.short_break
  | Session.long_break => cfg.long_break

/-- `reset_timer` (`main.py` lines 380-398): clear both flags, cancel the
pending tick, and recompute `time_remaining` from the current session
kind and the live settings.  `current_session` and `session_count` are
not touched. -/
def reset_timer (cfg : Config) (s : TimerState) : TimerState :=
  { s with
      is_running := false
      is_paused := false
      time_remaining := duration_for cfg s.current_session * 60 }

/-- Modelled from the spec: `skip()` is specified in the spec but has no
implementation in `src/main.py` (the UI has no skip control and no method
of the class performs a skip).  Per the spec it cancels any pending tick,
calls `advance()` (that is, `next_session`) immediately without requiring
`remaining_seconds = 0`, and resets the run state to Idle. -/
def skip (cfg : Config) (s : TimerState) : TimerState :=
  next_session cfg { s with is_running := false, is_paused := false }

/-- The driver operations of claim C10: start, pause, resume, reset, and
session completion. -/
inductive TimerOp where
  | start
  | pause
  | resume
  | reset
  | complete
deriving DecidableEq, Repr

/-- Apply one driver operation to the timer state. -/
def applyOp (cfg : Config) (s : TimerState) : TimerOp → TimerState
  | TimerOp.start => start_timer cfg s
  | TimerOp.pause => pause_timer s
  | TimerOp.resume => resume_timer cfg s
  | TimerOp.reset => reset_timer cfg s
  | TimerOp.complete => session_complete cfg s

/-- Run a sequence of driver operations from a state. -/
def runOps (cfg : Config) (s : TimerState) (ops : List TimerOp) : TimerState :=
  ops.foldl (applyOp cfg) s

/-- The default configuration (25/5/15/4), as a `Config`. -/
def defaultConfig : Config :=
  { work_duration := 25, short_break := 5, long_break := 15
    sessions_until_long_break := 4 }

/-- A complete settings dict, carrying all five keys in the canonical
order, as produced by the settings dialog (`main.py` lines 575-581). -/
def mkSettings (w sb lb n : Int) (snd : String) : Dict :=
  [ ("work_duration", .num w),
    ("short_break", .num sb),
    ("long_break", .num lb),
    ("sessions_until_long_break", .num n),
    ("notification_sound", .str snd) ]

/-! ## Helper lemmas -/

/-- A key whose membership test fails looks up to `none`. -/
theorem lookup_eq_none_of_not_hasKey (d : Dict) (k : String)
    (h : hasKey d k = false) : lookup d k = none := by
  unfold hasKey at h
  cases hl : lookup d k with
  | none => rfl
  | some v => rw [hl] at h; simp at h

/-- Setting a key makes it look up to the new value. -/
theorem lookup_setKey_self (d : Dict) (k : String) (v : JValue) :
    lookup (setKey d k v) k = some v := by
  induction d with
  | nil => simp [setKey, lookup]
  | cons kv rest ih =>
      obtain ⟨k0, v0⟩ := kv
      by_cases h : k0 = k
      · simp [setKey, lookup, h]
      · simp [setKey, lookup, h, ih]

/-- Setting a key does not disturb the lookup of any other key. -/
theorem lookup_setKey_ne (d : Dict) (k k' : String) (v : JValue)
    (h : k ≠ k') : lookup (setKey d k v) k' = lookup d k' := by
  induction d with
  | nil => simp [setKey, lookup, h]
  | cons kv rest ih =>
      obtain ⟨k0, v0⟩ := kv
      by_cases h0 : k0 = k
      · subst h0
        simp [setKey, lookup, h]
      · simp [setKey, lookup, h0, ih]

/-- Membership after setting a key. -/
theorem hasKey_setKey (d : Dict) (k k' : String) (v : JValue) :
    hasKey (setKey d k v) k' = (decide (k = k') || hasKey d k') := by
  by_cases h : k = k'
  · subst h
    simp [hasKey, lookup_setKey_self]
  · simp [hasKey, lookup_setKey_ne d k k' v h, h]

/-- Characterization of the merge fold: a key present in the initial dict
keeps its value; a key absent from it is looked up among the defaults
being folded in. -/
theorem lookup_foldl_merge (defs : List (String × JValue)) (d : Dict)
    (k : String) :
    lookup (defs.foldl mergeStep d) k =
      if hasKey d k = true then lookup d k else lookup defs k := by
  induction defs generalizing d with
  | nil =>
      by_cases h : hasKey d k
      · simp [h]
      · simp only [List.foldl_nil, lookup]
        rw [if_neg (by simp [h]), lookup_eq_none_of_not_hasKey d k (by simp [h])]
  | cons kv rest ih =>
      obtain ⟨k0, v0⟩ := kv
      simp only [List.foldl_cons]
      by_cases h0 : hasKey d k0
      · rw [show mergeStep d (k0, v0) = d from if_pos h0, ih d]
        by_cases hk : hasKey d k
        · simp [hk]
        · have hne : k0 ≠ k := by
            intro he
            rw [he] at h0
            simp [hk] at h0
          simp [hk, lookup, hne]
      · rw [show mergeStep d (k0, v0) = setKey d k0 v0 from
          if_neg (by simp [h0]), ih (setKey d k0 v0)]
        by_cases hk0 : k0 = k
        · subst hk0
          simp [hasKey_setKey, lookup_setKey_self, lookup,
            Bool.eq_false_iff.mp (by simpa using h0)]
        · simp [hasKey_setKey, hk0, lookup_setKey_ne d k0 k v0 hk0, lookup]

/-- `next_session` never changes the `is_running` flag. -/
theorem next_session_is_running (cfg : Config) (s : TimerState) :
    (next_session cfg s).is_running = s.is_running := by
  cases hcs : s.current_session with
  | work =>
      by_cases hmod :
          (s.session_count + 1) % cfg.sessions_until_long_break = 0
      · simp [next_session, hcs, hmod]
      · simp [next_session, hcs, hmod]
  | short_break => simp [next_session, hcs]
  | long_break => simp [next_session, hcs]

/-- `next_session` never changes the `is_paused` flag. -/
theorem next_session_is_paused (cfg : Config) (s : TimerState) :
    (next_session cfg s).is_paused = s.is_paused := by
  cases hcs : s.current_session with
  | work =>
      by_cases hmod :
          (s.session_count + 1) % cfg.sessions_until_long_break = 0
      · simp [next_session, hcs, hmod]
      · simp [next_session, hcs, hmod]
  | short_break => simp [next_session, hcs]
  | long_break => simp [next_session, hcs]

/-- With positive durations, `next_session` always installs a positive
remaining time. -/
theorem next_session_time_pos (cfg : Config) (s : TimerState)
    (hw : 0 < cfg.work_duration) (hs : 0 < cfg.short_break)
    (hl : 0 < cfg.long_break) :
    0 < (next_session cfg s).time_remaining := by
  cases hcs : s.current_session with
  | work =>
      by_cases hmod :
          (s.session_count + 1) % cfg.sessions_until_long_break = 0
      · simp only [next_session, hcs, hmod, if_true]
        omega
      · simp only [next_session, hcs, hmod, if_false]
        omega
  | short_break =>
      simp only [next_session, hcs]
      omega
  | long_break =>
      simp only [next_session, hcs]
      omega

/-- After any of the five driver operations, the two run-state flags are
not both set. -/
theorem countdown_flags_ok (cfg : Config) (s : TimerState)
    (hp : s.is_paused = false) :
    ¬((countdown cfg s).is_running = true ∧
      (countdown cfg s).is_paused = true) := by
  unfold countdown
  split
  · simp [hp]
  · split
    · simp [session_complete, next_session_is_paused, hp]
    · simp [hp]

/-- Each driver operation leaves the state with `is_running` and
`is_paused` not both true, whatever the input state. -/
theorem applyOp_flags_ok (cfg : Config) (s : TimerState) (op : TimerOp) :
    ¬((applyOp cfg s op).is_running = true ∧
      (applyOp cfg s op).is_paused = true) := by
  cases op with
  | start => exact countdown_flags_ok cfg _ rfl
  | pause => simp [applyOp, pause_timer]
  | resume => exact countdown_flags_ok cfg _ rfl
  | reset => simp [applyOp, reset_timer]
  | complete => simp [applyOp, session_complete, next_session_is_running]

/-! ## Claims -/

/-- C1: from a Work session, `next_session` increments `session_count` by
exactly one and moves to a long break at `long_break * 60` seconds when
the new count is divisible by `sessions_until_long_break`, otherwise to a
short break at `short_break * 60` seconds; from either break it moves
back to Work at `work_duration * 60` seconds with `session_count`
unchanged. -/
theorem next_session_spec (cfg : Config) (s : TimerState)
    (hn : 0 < cfg.sessions_until_long_break) :
    (s.current_session = Session.work →
      (next_session cfg s).session_count = s.session_count + 1 ∧
      ((s.session_count + 1) % cfg.sessions_until_long_break = 0 →
        (next_session cfg s).current_session = Session.long_break ∧
        (next_session cfg s).time_remaining = cfg.long_break * 60) ∧
      ((s.session_count + 1) % cfg.sessions_until_long_break ≠ 0 →
        (next_session cfg s).current_session = Session.short_break ∧
        (next_session cfg s).time_remaining = cfg.short_break * 60)) ∧
    (s.current_session ≠ Session.work →
      (next_session cfg s).current_session = Session.work ∧
      (next_session cfg s).time_remaining = cfg.work_duration * 60 ∧
      (next_session cfg s).session_count = s.session_count) := by
  constructor
  · intro hw
    by_cases hmod :
        (s.session_count + 1) % cfg.sessions_until_long_break = 0
    · refine ⟨?_, fun _ => ⟨?_, ?_⟩, fun hne => absurd hmod hne⟩ <;>
        simp [next_session, hw, hmod]
    · refine ⟨?_, fun he => absurd he hmod, fun _ => ⟨?_, ?_⟩⟩ <;>
        simp [next_session, hw, hmod]
  · intro hnw
    cases hcs : s.current_session with
    | work => exact absurd hcs hnw
    | short_break => refine ⟨?_, ?_, ?_⟩ <;> simp [next_session, hcs]
    | long_break => refine ⟨?_, ?_, ?_⟩ <;> simp [next_session, hcs]

/-- Witness for C1: with default settings, the very first work session is
followed by a short break. -/
theorem next_session_spec_witness :
    (next_session defaultConfig (initial_state defaultConfig)).current_session =
      Session.short_break :=
  (((next_session_spec defaultConfig (initial_state defaultConfig)
      (by decide)).1 rfl).2.2 (by decide)).1

/-- C2: when running, a `countdown` tick with time left decrements
`time_remaining` by exactly one; at zero it performs no decrement (the
remaining time does not drop), so with positive durations the remaining
time stays non-negative. -/
theorem countdown_running_spec (cfg : Config) (s : TimerState)
    (hw : 0 < cfg.work_duration) (hs : 0 < cfg.short_break)
    (hl : 0 < cfg.long_break)
    (hrun : s.is_running = true) (h0 : 0 ≤ s.time_remaining) :
    (0 < s.time_remaining →
      (countdown cfg s).time_remaining = s.time_remaining - 1) ∧
    (s.time_remaining = 0 →
      s.time_remaining ≤ (countdown cfg s).time_remaining) ∧
    0 ≤ (countdown cfg s).time_remaining := by
  by_cases hpos : 0 < s.time_remaining
  · have hc : countdown cfg s =
        { s with time_remaining := s.time_remaining - 1 } := by
      unfold countdown
      rw [if_pos ⟨hrun, hpos⟩]
    rw [hc]
    refine ⟨fun _ => rfl, fun hz => absurd hz (by omega), by simp; omega⟩
  · have hz : s.time_remaining = 0 := by omega
    have hc : countdown cfg s = session_complete cfg s := by
      unfold countdown
      rw [if_neg (by simp [hz]), if_pos hz]
    rw [hc]
    have hp := next_session_time_pos cfg
      { s with is_running := false } hw hs hl
    refine ⟨fun h => absurd h hpos, fun _ => ?_, ?_⟩
    · rw [hz]
      exact le_of_lt hp
    · exact le_of_lt hp

/-- Witness for C2: a running work session with 5 seconds left ticks down
to 4 seconds. -/
theorem countdown_running_spec_witness :
    (countdown defaultConfig
      { current_session := Session.work, session_count := 0,
        time_remaining := 5, is_running := true,
        is_paused := false }).time_remaining = 5 - 1 :=
  (countdown_running_spec defaultConfig
    { current_session := Session.work, session_count := 0,
      time_remaining := 5, is_running := true, is_paused := false }
    (by decide) (by decide) (by decide) rfl (by decide)).1 (by decide)

/-- C3 counterexample: `countdown` called while not running, with
`time_remaining = 0`, does change `time_remaining` — it falls into the
`elif time_remaining == 0` branch, runs `session_complete`, and the
advance installs the next session's full duration (here 300 seconds). -/
theorem countdown_idle_zero_counterexample :
    (countdown defaultConfig
      { current_session := Session.work, session_count := 0,
        time_remaining := 0, is_running := false,
        is_paused := false }).time_remaining ≠
      ({ current_session := Session.work, session_count := 0,
          time_remaining := 0, is_running := false,
          is_paused := false } : TimerState).time_remaining := by
  decide

/-- C3 amended: when not running, `countdown` leaves `time_remaining`
unchanged whenever it is nonzero; at exactly zero it instead invokes
`session_complete`, which advances the cycle and installs the next
session's duration. -/
theorem countdown_not_running_spec (cfg : Config) (s : TimerState)
    (hrun : s.is_running = false) :
    (s.time_remaining ≠ 0 → countdown cfg s = s) ∧
    (s.time_remaining = 0 → countdown cfg s = session_complete cfg s) := by
  constructor
  · intro hnz
    unfold countdown
    rw [if_neg (by simp [hrun]), if_neg hnz]
  · intro hz
    unfold countdown
    rw [if_neg (by simp [hrun]), if_pos hz]

/-- Witness for C3 (amended): a paused work session with 7 seconds left
is untouched by `countdown`. -/
theorem countdown_not_running_spec_witness :
    countdown defaultConfig
      { current_session := Session.work, session_count := 0,
        time_remaining := 7, is_running := false, is_paused := true } =
      { current_session := Session.work, session_count := 0,
        time_remaining := 7, is_running := false, is_paused := true } :=
  (countdown_not_running_spec defaultConfig
    { current_session := Session.work, session_count := 0,
      time_remaining := 7, is_running := false, is_paused := true }
    rfl).1 (by decide)

/-- C4: `reset_timer` recomputes `time_remaining` as the current
session's configured duration times 60, clears both run-state flags
(Idle), and leaves `current_session` and `session_count` untouched. -/
theorem reset_timer_spec (cfg : Config) (s : TimerState) :
    (reset_timer cfg s).time_remaining =
      duration_for cfg s.current_session * 60 ∧
    (reset_timer cfg s).is_running = false ∧
    (reset_timer cfg s).is_paused = false ∧
    (reset_timer cfg s).current_session = s.current_session ∧
    (reset_timer cfg s).session_count = s.session_count := by
  refine ⟨rfl, rfl, rfl, rfl, rfl⟩

/-- C5: saving a complete, valid settings dict and loading it back
returns exactly the saved dict — the merge loop finds every key present
and changes nothing. -/
theorem settings_round_trip (w sb lb n : Int) (snd : String) (st : Store)
    (hw : 0 < w) (hs : 0 < sb) (hl : 0 < lb) (hn : 0 < n) :
    (load_settings (save_settings (mkSettings w sb lb n snd) st)).1 =
      mkSettings w sb lb n snd := by
  show ensureDefaults (mkSettings w sb lb n snd) = mkSettings w sb lb n snd
  unfold ensureDefaults default_settings
  simp [mergeStep, hasKey, lookup, mkSettings]

/-- Witness for C5: the default record (25/5/15/4, empty sound path)
round-trips through save and load. -/
theorem settings_round_trip_witness :
    (load_settings (save_settings (mkSettings 25 5 15 4 "") Store.missing)).1 =
      mkSettings 25 5 15 4 "" :=
  settings_round_trip 25 5 15 4 "" Store.missing
    (by decide) (by decide) (by decide) (by decide)

/-- C6: loading a parsed record merges on load: every key present in the
stored dict keeps its stored value, and every absent key is filled from
the defaults (25/5/15/4, empty sound path). -/
theorem load_merge_spec (d : Dict) (k : String) :
    lookup (load_settings (Store.content d)).1 k =
      if hasKey d k = true then lookup d k
      else lookup default_settings k := by
  show lookup (ensureDefaults d) k = _
  unfold ensureDefaults
  rw [lookup_foldl_merge]

/-- C7 counterexample: a store whose content is malformed is a load
failure on which the code returns the defaults but does NOT attempt to
persist them — only the missing-file branch calls `save_settings`; the
`except` branch returns the defaults directly. -/
theorem load_failure_persist_counterexample :
    (load_settings Store.malformed).1 = default_settings ∧
    ¬((load_settings Store.malformed).2 = true) := by
  decide

/-- C7 amended: every load failure returns the default settings, but the
defaults are persisted only in the missing-file case; on malformed
content or an I/O error the defaults are returned without any attempt to
persist them. -/
theorem load_failure_spec :
    (load_settings Store.missing).1 = default_settings ∧
    (load_settings Store.missing).2 = true ∧
    (load_settings Store.malformed).1 = default_settings ∧
    (load_settings Store.malformed).2 = false := by
  decide

/-- C8: `skip` performs exactly the transition of `next_session` on the
session kind, the session count and the remaining time, and leaves the
run state Idle (both flags cleared), from every state. -/
theorem skip_spec (cfg : Config) (s : TimerState) :
    (skip cfg s).current_session = (next_session cfg s).current_session ∧
    (skip cfg s).session_count = (next_session cfg s).session_count ∧
    (skip cfg s).time_remaining = (next_session cfg s).time_remaining ∧
    (skip cfg s).is_running = false ∧
    (skip cfg s).is_paused = false := by
  refine ⟨?_, ?_, ?_, ?_, ?_⟩ <;>
  · cases hcs : s.current_session with
    | work =>
        by_cases hmod :
            (s.session_count + 1) % cfg.sessions_until_long_break = 0
        · simp [skip, next_session, hcs, hmod]
        · simp [skip, next_session, hcs, hmod]
    | short_break => simp [skip, next_session, hcs]
    | long_break => simp [skip, next_session, hcs]

/-- C9 counterexample: pausing a running work session with 1500 seconds
left and immediately resuming does not preserve `time_remaining` —
`resume_timer` calls `countdown` directly, which eats one second. -/
theorem pause_resume_counterexample :
    (resume_timer defaultConfig (pause_timer
      { current_session := Session.work, session_count := 0,
        time_remaining := 1500, is_running := true,
        is_paused := false })).time_remaining ≠
      ({ current_session := Session.work, session_count := 0,
          time_remaining := 1500, is_running := true,
          is_paused := false } : TimerState).time_remaining := by
  decide

/-- C9 amended: `pause_timer` itself leaves `time_remaining` unchanged,
but `resume_timer` immediately executes one `countdown` tick, so a
pause/resume pair on a running session with time left decrements
`time_remaining` by exactly one. -/
theorem pause_resume_spec (cfg : Config) (s : TimerState)
    (hrun : s.is_running = true) (hpos : 0 < s.time_remaining) :
    (pause_timer s).time_remaining = s.time_remaining ∧
    (resume_timer cfg (pause_timer s)).time_remaining =
      s.time_remaining - 1 := by
  refine ⟨rfl, ?_⟩
  unfold resume_timer pause_timer countdown
  rw [if_pos ⟨rfl, hpos⟩]

/-- Witness for C9 (amended): the 1500-second running work session loses
exactly one second across pause/resume. -/
theorem pause_resume_spec_witness :
    (resume_timer defaultConfig (pause_timer
      { current_session := Session.work, session_count := 0,
        time_remaining := 1500, is_running := true,
        is_paused := false })).time_remaining = 1500 - 1 :=
  (pause_resume_spec defaultConfig
    { current_session := Session.work, session_count := 0,
      time_remaining := 1500, is_running := true, is_paused := false }
    rfl (by decide)).2

/-- C10: starting from the initial state, no sequence of the driver
operations start, pause, resume, reset, and session completion can reach
a state where `is_running` and `is_paused` are both true — the run state
is always exactly one of Idle, Running, Paused. -/
theorem run_state_consistent (cfg : Config) (ops : List TimerOp) :
    ¬((runOps cfg (initial_state cfg) ops).is_running = true ∧
      (runOps cfg (initial_state cfg) ops).is_paused = true) := by
  suffices h : ∀ s : TimerState,
      ¬(s.is_running = true ∧ s.is_paused = true) →
      ¬((runOps cfg s ops).is_running = true ∧
        (runOps cfg s ops).is_paused = true) by
    exact h _ (by simp [initial_state])
  induction ops with
  | nil => exact fun s hs => hs
  | cons op rest ih =>
      exact fun s _ => ih (applyOp cfg s op) (applyOp_flags_ok cfg s op)

end Pomodoro
